import Mathlib

/-!
Verification of the AI-Hawk job-application scoring service
(src/data/schema/main.py). The whole service is one Flask route,
`analyze_job_posting`, which validates the request body, calls the Gemini
structured-output model, parses the result, applies an 80-point threshold
gate, writes one audit-log document to the Firestore collection
`application_log`, and maps the outcome to an HTTP response.

The embedding below is shallow: JSON values are a Lean inductive, the
Firestore collection is an association list with overwrite writes, and each
interaction with the outside world (body parsing, model call plus
`json.loads`, write success) is an input of the handler, so the handler is
a pure function from that input and the current store to an HTTP result and
a new store.
-/

/-- JSON values as the Python service handles them: results of
`request.get_json()` and `json.loads`, and Firestore document payloads.
Numbers are rationals (the service compares scores such as 79.999 and 80).
`timestamp` stands for the Firestore `SERVER_TIMESTAMP` sentinel that the
handler stores in the `timestamp` field of every audit-log document. -/
inductive Json where
  | null : Json
  | bool : Bool → Json
  | num : Rat → Json
  | str : String → Json
  | arr : List Json → Json
  | obj : List (String × Json) → Json
  | timestamp : Json

/-- Python truthiness of a JSON value, as used by the handler's
`if not job_id or not job_description`: `None`, `False`, `0`, the empty
string, the empty list and the empty dict are falsy; everything else is
truthy. The `SERVER_TIMESTAMP` sentinel is an ordinary (truthy) object. -/
def jsonTruthy : Json → Bool
  | Json.null => false
  | Json.bool b => b
  | Json.num q => q != 0
  | Json.str s => s != ""
  | Json.arr xs => !xs.isEmpty
  | Json.obj fs => !fs.isEmpty
  | Json.timestamp => true

/-- Truthiness of a `dict.get(key)` result: a missing key yields Python
`None`, which is falsy. -/
def optTruthy : Option Json → Bool
  | none => false
  | some j => jsonTruthy j

/-- `dict.get(key)` on a parsed JSON object. `json.loads` keeps the last
occurrence of a duplicated key, hence the lookup on the reversed field
list. -/
def dictGet (fields : List (String × Json)) (key : String) : Option Json :=
  (fields.reverse).lookup key

/-- Field access on a JSON value when it is an object; `none` otherwise.
Used to state which fields a response body or audit-log document carries. -/
def docField (j : Json) (key : String) : Option Json :=
  match j with
  | Json.obj fs => dictGet fs key
  | _ => none

/-- Numeric view taken by the Python comparison `weighted_score < 80`:
numbers compare as themselves and `bool` compares as 0 or 1 (Python `bool`
is an `int` subtype); comparing any other value with `80` raises
`TypeError`, modelled by `none`. -/
def pyNumVal : Json → Option Rat
  | Json.num q => some q
  | Json.bool b => some (if b then 1 else 0)
  | _ => none

/-- The Firestore collection `application_log`: documents keyed by document
id, in insertion order. -/
abbrev Store : Type := List (String × Json)

/-- `db.collection("application_log").document(id).set(doc)`: an upsert
that fully replaces any document previously stored at `id` (no merge
option is passed in main.py). -/
def setDoc (store : Store) (id : String) (doc : Json) : Store :=
  (store.filter (fun kv => kv.1 != id)) ++ [(id, doc)]

/-- Read the document stored at `id`. -/
def getDoc (store : Store) (id : String) : Option Json :=
  store.lookup id

/-- Number of documents stored at key `id`. -/
def countKey (store : Store) (id : String) : Nat :=
  (store.filter (fun kv => kv.1 == id)).length

/-- One request's interaction with the outside world, as the handler sees
it: `body` is the result of `request.get_json()` (`Except.error` when
parsing raises, carrying the exception text `str(e)`); `modelResult` is
the combined result of `gemini_client.models.generate_content` followed by
`json.loads(response.text)` — a transport failure and a parse failure both
raise into the same broad `except` clause, so both are `Except.error` with
the exception text, and `Except.ok` carries the parsed JSON value;
`writeFails` says whether a Firestore `set` call issued by this request
raises, and `writeErrMsg` is the text of that exception. -/
structure Env where
  body : Except String Json
  modelResult : Except String Json
  writeFails : Bool
  writeErrMsg : String

/-- Outcome of one call to `analyze_job_posting`: the HTTP status code, the
JSON response body, the resulting `application_log` store, whether the
Gemini model call was issued, and whether a Firestore write was attempted
and failed. -/
structure HandlerResult where
  status : Nat
  body : Json
  store : Store
  modelCalled : Bool
  writeFailed : Bool

/-- `jsonify({"status": "error", "message": str(e)})`, the body shape of
every 500 response produced by the broad `except` clause. -/
def errorBody (msg : String) : Json :=
  Json.obj [("status", Json.str "error"), ("message", Json.str msg)]

/-- The 400 validation-failure response body. -/
def missingFieldsBody : Json :=
  errorBody "Missing job_id or job_description"

/-- Text of the `AttributeError` raised by `job_data.get(...)` or
`score_result.get(...)` when the parsed value is not a dict (for example
`None` or a list). -/
def attrGetMsg : String := "object has no attribute get"

/-- Text of the `TypeError` raised by `weighted_score < 80` when the
extracted value is not comparable with an int. -/
def typeLtMsg : String := "unsupported operand types for lt"

/-- Text of the error raised by `document(job_id)` when `job_id` is not a
string. -/
def docIdTypeMsg : String := "document path must be a string"

/-- The audit-log document written on rejection (main.py lines 74-79). -/
def rejectedDoc (ws : Json) : Json :=
  Json.obj [("status", Json.str "REJECTED"), ("score", ws),
    ("reason", Json.str "Score below 80% threshold"),
    ("timestamp", Json.timestamp)]

/-- The audit-log document written on acceptance (main.py lines 87-93). -/
def readyDoc (ws score_result job_data : Json) : Json :=
  Json.obj [("status", Json.str "READY_FOR_SUBMISSION"), ("score", ws),
    ("gemini_details", score_result), ("job_data", job_data),
    ("timestamp", Json.timestamp)]

/-- The 200 response body on rejection (main.py line 80). -/
def rejectedBody (ws : Json) : Json :=
  Json.obj [("status", Json.str "rejected"), ("score", ws)]

/-- The 200 response body on acceptance (main.py line 98). -/
def successBody (ws score_result : Json) : Json :=
  Json.obj [("status", Json.str "success"), ("score", ws),
    ("details", score_result)]

/-- Shallow embedding of the route handler `analyze_job_posting`
(src/data/schema/main.py, lines 37-102), following the source line by
line. The whole body runs inside `try ... except Exception`, so every
raised exception becomes a 500 response with `errorBody` of the exception
text: a body-parse failure, the `.get` `AttributeError` on a non-dict, a
model-call or `json.loads` failure, the `TypeError` of comparing a
non-number with 80, a non-string document id, and a Firestore write
failure all land there. Writes happen only in the two threshold branches,
each as a single `setDoc`. -/
def analyze_job_posting (env : Env) (store : Store) : HandlerResult :=
  match env.body with
  | Except.error e => ⟨500, errorBody e, store, false, false⟩
  | Except.ok job_data =>
    match job_data with
    | Json.obj fields =>
      let job_id := dictGet fields "job_id"
      let job_description := dictGet fields "job_description"
      if !optTruthy job_id || !optTruthy job_description then
        ⟨400, missingFieldsBody, store, false, false⟩
      else
        match env.modelResult with
        | Except.error e => ⟨500, errorBody e, store, true, false⟩
        | Except.ok score_result =>
          match score_result with
          | Json.obj sfields =>
            let weighted_score := (dictGet sfields "weighted_score").getD (Json.num 0)
            match pyNumVal weighted_score with
            | none => ⟨500, errorBody typeLtMsg, store, true, false⟩
            | some q =>
              if q < 80 then
                match job_id with
                | some (Json.str docId) =>
                  if env.writeFails then
                    ⟨500, errorBody env.writeErrMsg, store, true, true⟩
                  else
                    ⟨200, rejectedBody weighted_score,
                      setDoc store docId (rejectedDoc weighted_score), true, false⟩
                | _ => ⟨500, errorBody docIdTypeMsg, store, true, false⟩
              else
                match job_id with
                | some (Json.str docId) =>
                  if env.writeFails then
                    ⟨500, errorBody env.writeErrMsg, store, true, true⟩
                  else
                    ⟨200, successBody weighted_score score_result,
                      setDoc store docId (readyDoc weighted_score score_result job_data),
                      true, false⟩
                | _ => ⟨500, errorBody docIdTypeMsg, store, true, false⟩
          | _ => ⟨500, errorBody attrGetMsg, store, true, false⟩
    | _ => ⟨500, errorBody attrGetMsg, store, false, false⟩

/-- The threshold rule of the Decision Gate (main.py line 73):
`weighted_score < 80` is REJECTED, anything else — the threshold is
inclusive at 80 — is READY_FOR_SUBMISSION. -/
def decisionStatus (q : Rat) : String :=
  if q < 80 then "REJECTED" else "READY_FOR_SUBMISSION"

/-- The request reaches the Decision Gate (the threshold comparison at
main.py line 73) with a decision actually taken: the body parsed to a
dict, both required fields are truthy, the model call and `json.loads`
succeeded with a dict, and the extracted `weighted_score` is comparable
with 80. -/
def reachesDecisionGate (env : Env) : Bool :=
  match env.body with
  | Except.error _ => false
  | Except.ok job_data =>
    match job_data with
    | Json.obj fields =>
      if !optTruthy (dictGet fields "job_id") ||
          !optTruthy (dictGet fields "job_description") then false
      else
        match env.modelResult with
        | Except.error _ => false
        | Except.ok score_result =>
          match score_result with
          | Json.obj sfields =>
            (pyNumVal ((dictGet sfields "weighted_score").getD (Json.num 0))).isSome
          | _ => false
    | _ => false

/-- The field names of a JSON object, in order; `[]` on non-objects. -/
def fieldNames : Json → List String
  | Json.obj fs => fs.map Prod.fst
  | _ => []

/-- A validated request for job "jb80" whose model returns a weighted_score
of exactly 80; the write succeeds. -/
def envAt80 : Env :=
  ⟨Except.ok (Json.obj [("job_id", Json.str "jb80"), ("job_description", Json.str "desc80")]),
   Except.ok (Json.obj [("weighted_score", Json.num 80)]), false, ""⟩

/-- A validated request for job "jb79" whose model returns a weighted_score
of 79.999 (the rational 79999/1000); the write succeeds. -/
def envBelow80 : Env :=
  ⟨Except.ok (Json.obj [("job_id", Json.str "jb79"), ("job_description", Json.str "desc79")]),
   Except.ok (Json.obj [("weighted_score", Json.num (Rat.divInt 79999 1000))]), false, ""⟩

/-- A validated request for job "j2" scored 35; the write succeeds. -/
def envC2pass : Env :=
  ⟨Except.ok (Json.obj [("job_id", Json.str "j2"), ("job_description", Json.str "retail job")]),
   Except.ok (Json.obj [("weighted_score", Json.num 35)]), false, ""⟩

/-- A request whose body lacks `job_description`. -/
def envC2invalid : Env :=
  ⟨Except.ok (Json.obj [("job_id", Json.str "j2")]), Except.ok Json.null, false, ""⟩

/-- A validated request for job "jc2" scored 90 whose Firestore write
raises: the Decision Gate is reached, yet no document is persisted. -/
def envC2writeFail : Env :=
  ⟨Except.ok (Json.obj [("job_id", Json.str "jc2"), ("job_description", Json.str "jd")]),
   Except.ok (Json.obj [("weighted_score", Json.num 90)]), true, "firestore write raised"⟩

/-- A request whose body carries an empty `job_description`. -/
def envC3 : Env :=
  ⟨Except.ok (Json.obj [("job_id", Json.str "j3"), ("job_description", Json.str "")]),
   Except.ok Json.null, false, ""⟩

/-- A validated request whose parsed model output has no `weighted_score`
field at all. -/
def envC4 : Env :=
  ⟨Except.ok (Json.obj [("job_id", Json.str "j4"), ("job_description", Json.str "jd4")]),
   Except.ok (Json.obj [("missing_keywords", Json.arr [])]), false, ""⟩

/-- A validated request whose model call raises a transport failure. -/
def envC5model : Env :=
  ⟨Except.ok (Json.obj [("job_id", Json.str "j5"), ("job_description", Json.str "jd5")]),
   Except.error "transport failure", false, ""⟩

/-- A validated request scored 95 whose Firestore write raises. -/
def envC5write : Env :=
  ⟨Except.ok (Json.obj [("job_id", Json.str "j5"), ("job_description", Json.str "jd5")]),
   Except.ok (Json.obj [("weighted_score", Json.num 95)]), true, "firestore set raised"⟩

/-- A validated request for job "j6" scored 92 whose Firestore write
raises. -/
def envC6 : Env :=
  ⟨Except.ok (Json.obj [("job_id", Json.str "j6"), ("job_description", Json.str "jd6")]),
   Except.ok (Json.obj [("weighted_score", Json.num 92)]), true, "firestore down"⟩

/-- A validated request for job "j7a" scored 92; the write succeeds. -/
def envC7hi : Env :=
  ⟨Except.ok (Json.obj [("job_id", Json.str "j7a"), ("job_description", Json.str "jd7")]),
   Except.ok (Json.obj [("weighted_score", Json.num 92)]), false, ""⟩

/-- A validated request for job "j7b" scored 35; the write succeeds. -/
def envC7lo : Env :=
  ⟨Except.ok (Json.obj [("job_id", Json.str "j7b"), ("job_description", Json.str "jd7")]),
   Except.ok (Json.obj [("weighted_score", Json.num 35)]), false, ""⟩

/-- A request whose body fails to parse: `request.get_json()` raises. -/
def envC10err : Env :=
  ⟨Except.error "Failed to decode JSON object", Except.ok Json.null, false, ""⟩

/-- A request whose body parses to a JSON array, not an object. -/
def envC10arr : Env :=
  ⟨Except.ok (Json.arr []), Except.ok Json.null, false, ""⟩

/-- After an upsert, reading the written key returns the written document. -/
theorem getDoc_setDoc_self (store : Store) (id : String) (doc : Json) :
    getDoc (setDoc store id doc) id = some doc := by
  induction store with
  | nil => simp [getDoc, setDoc, List.lookup]
  | cons kv rest ih =>
      by_cases h : kv.1 = id
      · simpa [getDoc, setDoc, List.filter_cons, h] using ih
      · have h2 : (id == kv.1) = false := by simp [Ne.symm h]
        simpa [getDoc, setDoc, List.filter_cons, h, List.lookup, h2] using ih

/-- After an upsert, exactly one document sits at the written key. -/
theorem countKey_setDoc_self (store : Store) (id : String) (doc : Json) :
    countKey (setDoc store id doc) id = 1 := by
  induction store with
  | nil => simp [countKey, setDoc, List.filter]
  | cons kv rest ih =>
      by_cases h : kv.1 = id <;>
        · simp [countKey, setDoc, List.filter_cons, h] at ih ⊢
          try exact ih

/-- Unfolding of the handler on the failure-free path: body parsed to a
dict, both fields truthy with a non-empty string `job_id`, model and parse
succeeded with a dict, `weighted_score` extracted as a number, write
succeeds. The result is fully determined by the threshold comparison. -/
theorem analyze_ok_eq (env : Env) (store : Store)
    (fields sfields : List (String × Json)) (q : Rat) (docId : String)
    (hb : env.body = Except.ok (Json.obj fields))
    (hid : dictGet fields "job_id" = some (Json.str docId))
    (hidT : docId ≠ "")
    (hdesc : optTruthy (dictGet fields "job_description") = true)
    (hm : env.modelResult = Except.ok (Json.obj sfields))
    (hws : (dictGet sfields "weighted_score").getD (Json.num 0) = Json.num q)
    (hw : env.writeFails = false) :
    analyze_job_posting env store =
      if q < 80 then
        ⟨200, rejectedBody (Json.num q),
          setDoc store docId (rejectedDoc (Json.num q)), true, false⟩
      else
        ⟨200, successBody (Json.num q) (Json.obj sfields),
          setDoc store docId (readyDoc (Json.num q) (Json.obj sfields) (Json.obj fields)),
          true, false⟩ := by
  obtain ⟨b, m, wf, wm⟩ := env
  simp only at hb hm hw
  subst hb hm hw
  simp only [analyze_job_posting, hid, hws, hdesc]
  have hT : optTruthy (some (Json.str docId)) = true := by
    simp [optTruthy, jsonTruthy, hidT]
  rw [hT]
  simp only [pyNumVal]
  by_cases hq : q < 80 <;> simp [hq]

/-- Unfolding of the handler when the body parses to a dict with truthy
fields but the model call or `json.loads` raises: a 500 with the exception
text, no write, model call issued. -/
theorem analyze_modelError_eq (env : Env) (store : Store)
    (fields : List (String × Json)) (e : String)
    (hb : env.body = Except.ok (Json.obj fields))
    (hid : optTruthy (dictGet fields "job_id") = true)
    (hdesc : optTruthy (dictGet fields "job_description") = true)
    (hm : env.modelResult = Except.error e) :
    analyze_job_posting env store = ⟨500, errorBody e, store, true, false⟩ := by
  obtain ⟨b, m, wf, wm⟩ := env
  simp only at hb hm
  subst hb hm
  simp only [analyze_job_posting, hid, hdesc]
  simp

/-- Unfolding of the handler when everything succeeds up to the Firestore
write, which raises: a 500 with the write exception text, store unchanged. -/
theorem analyze_writeFail_eq (env : Env) (store : Store)
    (fields sfields : List (String × Json)) (q : Rat) (docId : String)
    (hb : env.body = Except.ok (Json.obj fields))
    (hid : dictGet fields "job_id" = some (Json.str docId))
    (hidT : docId ≠ "")
    (hdesc : optTruthy (dictGet fields "job_description") = true)
    (hm : env.modelResult = Except.ok (Json.obj sfields))
    (hws : (dictGet sfields "weighted_score").getD (Json.num 0) = Json.num q)
    (hw : env.writeFails = true) :
    analyze_job_posting env store =
      ⟨500, errorBody env.writeErrMsg, store, true, true⟩ := by
  obtain ⟨b, m, wf, wm⟩ := env
  simp only at hb hm hw
  subst hb hm hw
  simp only [analyze_job_posting, hid, hws, hdesc]
  have hT : optTruthy (some (Json.str docId)) = true := by
    simp [optTruthy, jsonTruthy, hidT]
  rw [hT]
  simp only [pyNumVal]
  by_cases hq : q < 80 <;> simp [hq]

/-- Unfolding of the handler when the body parses to a dict but a required
field is falsy: the 400 validation response, no write, no model call. -/
theorem analyze_invalid_eq (env : Env) (store : Store)
    (fields : List (String × Json))
    (hb : env.body = Except.ok (Json.obj fields))
    (hmiss : optTruthy (dictGet fields "job_id") = false ∨
      optTruthy (dictGet fields "job_description") = false) :
    analyze_job_posting env store = ⟨400, missingFieldsBody, store, false, false⟩ := by
  obtain ⟨b, m, wf, wm⟩ := env
  simp only at hb
  subst hb
  simp only [analyze_job_posting]
  rcases hmiss with h | h <;> simp [h]

/-- A 200 response is only produced after a Firestore write succeeded:
no execution reports HTTP 200 with a failed write. -/
theorem writeFailed_false_of_200 (env : Env) (store : Store) :
    (analyze_job_posting env store).status = 200 →
    (analyze_job_posting env store).writeFailed = false := by
  simp only [analyze_job_posting]
  repeat' split
  all_goals intro h
  all_goals first
    | rfl
    | (simp at h)

/-- C1: for every parsed score result on the failure-free path, a
weighted_score below 80 stores a REJECTED decision with reason "Score
below 80% threshold", and a weighted_score of at least 80 — the threshold
is inclusive at 80 — stores READY_FOR_SUBMISSION. -/
theorem C1_threshold_decision (env : Env) (store : Store)
    (fields sfields : List (String × Json)) (q : Rat) (docId : String)
    (hb : env.body = Except.ok (Json.obj fields))
    (hid : dictGet fields "job_id" = some (Json.str docId))
    (hidT : docId ≠ "")
    (hdesc : optTruthy (dictGet fields "job_description") = true)
    (hm : env.modelResult = Except.ok (Json.obj sfields))
    (hws : (dictGet sfields "weighted_score").getD (Json.num 0) = Json.num q)
    (hw : env.writeFails = false) :
    (q < 80 →
      getDoc (analyze_job_posting env store).store docId =
        some (rejectedDoc (Json.num q)) ∧
      docField (rejectedDoc (Json.num q)) "status" = some (Json.str "REJECTED") ∧
      docField (rejectedDoc (Json.num q)) "reason" =
        some (Json.str "Score below 80% threshold")) ∧
    (80 ≤ q →
      getDoc (analyze_job_posting env store).store docId =
        some (readyDoc (Json.num q) (Json.obj sfields) (Json.obj fields)) ∧
      docField (readyDoc (Json.num q) (Json.obj sfields) (Json.obj fields)) "status" =
        some (Json.str "READY_FOR_SUBMISSION")) := by
  have h := analyze_ok_eq env store fields sfields q docId hb hid hidT hdesc hm hws hw
  constructor
  · intro hq
    rw [h, if_pos hq]
    exact ⟨getDoc_setDoc_self store docId (rejectedDoc (Json.num q)), rfl, rfl⟩
  · intro hq
    rw [h, if_neg (not_lt.mpr hq)]
    exact ⟨getDoc_setDoc_self store docId
      (readyDoc (Json.num q) (Json.obj sfields) (Json.obj fields)), rfl⟩

/-- Witness for C1: a score of exactly 80 is stored READY_FOR_SUBMISSION
and a score of 79.999 is stored REJECTED. -/
theorem C1_threshold_decision_witness :
    getDoc (analyze_job_posting envAt80 []).store "jb80" =
      some (readyDoc (Json.num 80) (Json.obj [("weighted_score", Json.num 80)])
        (Json.obj [("job_id", Json.str "jb80"), ("job_description", Json.str "desc80")])) ∧
    getDoc (analyze_job_posting envBelow80 []).store "jb79" =
      some (rejectedDoc (Json.num (Rat.divInt 79999 1000))) := by
  constructor
  · exact ((C1_threshold_decision envAt80 []
      [("job_id", Json.str "jb80"), ("job_description", Json.str "desc80")]
      [("weighted_score", Json.num 80)] 80 "jb80"
      rfl rfl (by decide) rfl rfl rfl rfl).2 (le_refl 80)).1
  · exact ((C1_threshold_decision envBelow80 []
      [("job_id", Json.str "jb79"), ("job_description", Json.str "desc79")]
      [("weighted_score", Json.num (Rat.divInt 79999 1000))] (Rat.divInt 79999 1000) "jb79"
      rfl rfl (by decide) rfl rfl rfl rfl).1 (by decide)).1

/-- C2 counterexample: a validated request that reaches the Decision Gate
with no earlier failure, but whose Firestore write raises, produces zero
audit-log entries — the claim's "exactly one audit-log entry is written"
fails on such an execution. -/
theorem C2_counterexample :
    reachesDecisionGate envC2writeFail = true ∧
    countKey (analyze_job_posting envC2writeFail []).store "jc2" = 0 ∧
    (analyze_job_posting envC2writeFail []).store = [] :=
  ⟨rfl, rfl, rfl⟩

/-- C2 (amended): for every request that passes input validation and
reaches the Decision Gate without an earlier failure, and whose audit-log
write does not itself fail, exactly one audit-log entry is written, keyed
by job_id, with status determined solely by comparing weighted_score
against 80; and no entry is written for any request whose input validation
fails. -/
theorem C2_decision_gate_single_write :
    (∀ (env : Env) (store : Store) (fields sfields : List (String × Json))
        (q : Rat) (docId : String),
      env.body = Except.ok (Json.obj fields) →
      dictGet fields "job_id" = some (Json.str docId) →
      docId ≠ "" →
      optTruthy (dictGet fields "job_description") = true →
      env.modelResult = Except.ok (Json.obj sfields) →
      (dictGet sfields "weighted_score").getD (Json.num 0) = Json.num q →
      env.writeFails = false →
      ∃ doc, (analyze_job_posting env store).store = setDoc store docId doc ∧
        docField doc "status" = some (Json.str (decisionStatus q)) ∧
        countKey (analyze_job_posting env store).store docId = 1) ∧
    (∀ (env : Env) (store : Store) (fields : List (String × Json)),
      env.body = Except.ok (Json.obj fields) →
      (optTruthy (dictGet fields "job_id") = false ∨
        optTruthy (dictGet fields "job_description") = false) →
      (analyze_job_posting env store).store = store) := by
  constructor
  · intro env store fields sfields q docId hb hid hidT hdesc hm hws hw
    have h := analyze_ok_eq env store fields sfields q docId hb hid hidT hdesc hm hws hw
    by_cases hq : q < 80
    · refine ⟨rejectedDoc (Json.num q), ?_, ?_, ?_⟩
      · rw [h, if_pos hq]
      · simp only [decisionStatus, if_pos hq]
        rfl
      · rw [h, if_pos hq]
        exact countKey_setDoc_self store docId (rejectedDoc (Json.num q))
    · refine ⟨readyDoc (Json.num q) (Json.obj sfields) (Json.obj fields), ?_, ?_, ?_⟩
      · rw [h, if_neg hq]
      · simp only [decisionStatus, if_neg hq]
        rfl
      · rw [h, if_neg hq]
        exact countKey_setDoc_self store docId
          (readyDoc (Json.num q) (Json.obj sfields) (Json.obj fields))
  · intro env store fields hb hmiss
    rw [analyze_invalid_eq env store fields hb hmiss]

/-- Witness for C2 (amended): job "j2" scored 35 yields exactly one entry
with the threshold-determined status, and a request with no
job_description leaves the store untouched. -/
theorem C2_decision_gate_single_write_witness :
    (∃ doc, (analyze_job_posting envC2pass []).store = setDoc [] "j2" doc ∧
      docField doc "status" = some (Json.str (decisionStatus 35)) ∧
      countKey (analyze_job_posting envC2pass []).store "j2" = 1) ∧
    (analyze_job_posting envC2invalid []).store = [] := by
  constructor
  · exact C2_decision_gate_single_write.1 envC2pass []
      [("job_id", Json.str "j2"), ("job_description", Json.str "retail job")]
      [("weighted_score", Json.num 35)] 35 "j2" rfl rfl (by decide) rfl rfl rfl rfl
  · exact C2_decision_gate_single_write.2 envC2invalid []
      [("job_id", Json.str "j2")] rfl (Or.inr rfl)

/-- C3: a request body that parses to a dict in which job_id or
job_description is missing or the empty string gets the 400 response with
body {"status":"error","message":"Missing job_id or job_description"},
with no audit-log write and no model call. -/
theorem C3_missing_fields (env : Env) (store : Store)
    (fields : List (String × Json))
    (hb : env.body = Except.ok (Json.obj fields))
    (hmiss :
      dictGet fields "job_id" = none ∨ dictGet fields "job_id" = some (Json.str "") ∨
      dictGet fields "job_description" = none ∨
      dictGet fields "job_description" = some (Json.str "")) :
    analyze_job_posting env store = ⟨400, missingFieldsBody, store, false, false⟩ := by
  apply analyze_invalid_eq env store fields hb
  rcases hmiss with h | h | h | h
  · left; rw [h]; rfl
  · left; rw [h]; rfl
  · right; rw [h]; rfl
  · right; rw [h]; rfl

/-- Witness for C3: a request with an empty job_description. -/
theorem C3_missing_fields_witness :
    analyze_job_posting envC3 [] = ⟨400, missingFieldsBody, [], false, false⟩ :=
  C3_missing_fields envC3 []
    [("job_id", Json.str "j3"), ("job_description", Json.str "")]
    rfl (Or.inr (Or.inr (Or.inr rfl)))

/-- C4: when the parsed model response has no weighted_score field, the
handler treats the score as 0, and therefore rejects: it stores a REJECTED
entry with score 0 and answers 200 with the rejected body, instead of
surfacing an error. -/
theorem C4_missing_score_defaults_zero (env : Env) (store : Store)
    (fields sfields : List (String × Json)) (docId : String)
    (hb : env.body = Except.ok (Json.obj fields))
    (hid : dictGet fields "job_id" = some (Json.str docId))
    (hidT : docId ≠ "")
    (hdesc : optTruthy (dictGet fields "job_description") = true)
    (hm : env.modelResult = Except.ok (Json.obj sfields))
    (habs : dictGet sfields "weighted_score" = none)
    (hw : env.writeFails = false) :
    analyze_job_posting env store =
      ⟨200, rejectedBody (Json.num 0),
        setDoc store docId (rejectedDoc (Json.num 0)), true, false⟩ := by
  have hws : (dictGet sfields "weighted_score").getD (Json.num 0) = Json.num 0 := by
    rw [habs]; rfl
  have h := analyze_ok_eq env store fields sfields 0 docId hb hid hidT hdesc hm hws hw
  rw [h, if_pos (by norm_num : (0 : Rat) < 80)]

/-- Witness for C4: a model response carrying only missing_keywords. -/
theorem C4_missing_score_defaults_zero_witness :
    analyze_job_posting envC4 [] =
      ⟨200, rejectedBody (Json.num 0), setDoc [] "j4" (rejectedDoc (Json.num 0)),
        true, false⟩ :=
  C4_missing_score_defaults_zero envC4 []
    [("job_id", Json.str "j4"), ("job_description", Json.str "jd4")]
    [("missing_keywords", Json.arr [])] "j4" rfl rfl (by decide) rfl rfl rfl rfl

/-- C5: every failure after validation collapses to a 500 whose body is
errorBody of the exception text — the same shape for a model-call or parse
failure and for a persistence failure, with no distinction between kinds
and a single attempt of each step; when the model call fails, the store is
unchanged, so no audit-log entry is written. -/
theorem C5_post_validation_failures :
    (∀ (env : Env) (store : Store) (fields : List (String × Json)) (e : String),
      env.body = Except.ok (Json.obj fields) →
      optTruthy (dictGet fields "job_id") = true →
      optTruthy (dictGet fields "job_description") = true →
      env.modelResult = Except.error e →
      analyze_job_posting env store = ⟨500, errorBody e, store, true, false⟩) ∧
    (∀ (env : Env) (store : Store) (fields sfields : List (String × Json))
        (q : Rat) (docId : String),
      env.body = Except.ok (Json.obj fields) →
      dictGet fields "job_id" = some (Json.str docId) →
      docId ≠ "" →
      optTruthy (dictGet fields "job_description") = true →
      env.modelResult = Except.ok (Json.obj sfields) →
      (dictGet sfields "weighted_score").getD (Json.num 0) = Json.num q →
      env.writeFails = true →
      analyze_job_posting env store =
        ⟨500, errorBody env.writeErrMsg, store, true, true⟩) :=
  ⟨fun env store fields e => analyze_modelError_eq env store fields e,
   fun env store fields sfields q docId => analyze_writeFail_eq env store fields sfields q docId⟩

/-- Witness for C5: a transport failure and a write failure both yield a
500 with the errorBody shape, and the transport failure writes nothing. -/
theorem C5_post_validation_failures_witness :
    analyze_job_posting envC5model [] =
      ⟨500, errorBody "transport failure", [], true, false⟩ ∧
    analyze_job_posting envC5write [] =
      ⟨500, errorBody "firestore set raised", [], true, true⟩ := by
  constructor
  · exact C5_post_validation_failures.1 envC5model []
      [("job_id", Json.str "j5"), ("job_description", Json.str "jd5")]
      "transport failure" rfl rfl rfl rfl
  · exact C5_post_validation_failures.2 envC5write []
      [("job_id", Json.str "j5"), ("job_description", Json.str "jd5")]
      [("weighted_score", Json.num 95)] 95 "j5" rfl rfl (by decide) rfl rfl rfl rfl

/-- C6 counterexample: the claim asserts some execution returns HTTP 200
even though the audit-log write failed; in the code the write precedes the
200 response and a raised write lands in the broad except clause, so no
execution pairs a 200 status with a failed write. -/
theorem C6_counterexample :
    ¬ ∃ (env : Env) (store : Store),
        (analyze_job_posting env store).status = 200 ∧
        (analyze_job_posting env store).writeFailed = true := by
  rintro ⟨env, store, h200, hwf⟩
  rw [writeFailed_false_of_200 env store h200] at hwf
  exact Bool.false_ne_true hwf

/-- C6 (amended): there is an execution of a validated request in which the
scoring result is computed and a decision reached, yet the audit-log write
fails; the handler then returns HTTP 500 and the decision is not persisted
— decision and persistence are not atomic, but a 200 response is returned
only after a successful write. -/
theorem C6_no_atomicity :
    (analyze_job_posting envC6 []).modelCalled = true ∧
    (analyze_job_posting envC6 []).writeFailed = true ∧
    analyze_job_posting envC6 [] = ⟨500, errorBody "firestore down", [], true, true⟩ :=
  ⟨rfl, rfl, rfl⟩

/-- C7: on the failure-free path the response is 200 with the rejected
body {"status":"rejected","score": ws} when weighted_score < 80, and 200
with the success body {"status":"success","score": ws,"details":
score_result} when weighted_score >= 80; the details field is present only
in the success case. -/
theorem C7_response_bodies (env : Env) (store : Store)
    (fields sfields : List (String × Json)) (q : Rat) (docId : String)
    (hb : env.body = Except.ok (Json.obj fields))
    (hid : dictGet fields "job_id" = some (Json.str docId))
    (hidT : docId ≠ "")
    (hdesc : optTruthy (dictGet fields "job_description") = true)
    (hm : env.modelResult = Except.ok (Json.obj sfields))
    (hws : (dictGet sfields "weighted_score").getD (Json.num 0) = Json.num q)
    (hw : env.writeFails = false) :
    (q < 80 →
      (analyze_job_posting env store).status = 200 ∧
      (analyze_job_posting env store).body = rejectedBody (Json.num q) ∧
      docField (rejectedBody (Json.num q)) "details" = none) ∧
    (80 ≤ q →
      (analyze_job_posting env store).status = 200 ∧
      (analyze_job_posting env store).body = successBody (Json.num q) (Json.obj sfields) ∧
      docField (successBody (Json.num q) (Json.obj sfields)) "details" =
        some (Json.obj sfields)) := by
  have h := analyze_ok_eq env store fields sfields q docId hb hid hidT hdesc hm hws hw
  constructor
  · intro hq
    rw [h, if_pos hq]
    exact ⟨rfl, rfl, rfl⟩
  · intro hq
    rw [h, if_neg (not_lt.mpr hq)]
    exact ⟨rfl, rfl, rfl⟩

/-- Witness for C7: a score of 35 yields the rejected body without a
details field; a score of 92 yields the success body carrying details. -/
theorem C7_response_bodies_witness :
    ((analyze_job_posting envC7lo []).status = 200 ∧
      (analyze_job_posting envC7lo []).body = rejectedBody (Json.num 35) ∧
      docField (rejectedBody (Json.num 35)) "details" = none) ∧
    ((analyze_job_posting envC7hi []).status = 200 ∧
      (analyze_job_posting envC7hi []).body =
        successBody (Json.num 92) (Json.obj [("weighted_score", Json.num 92)]) ∧
      docField (successBody (Json.num 92) (Json.obj [("weighted_score", Json.num 92)]))
        "details" = some (Json.obj [("weighted_score", Json.num 92)])) := by
  constructor
  · exact (C7_response_bodies envC7lo []
      [("job_id", Json.str "j7b"), ("job_description", Json.str "jd7")]
      [("weighted_score", Json.num 35)] 35 "j7b"
      rfl rfl (by decide) rfl rfl rfl rfl).1 (by decide)
  · exact (C7_response_bodies envC7hi []
      [("job_id", Json.str "j7a"), ("job_description", Json.str "jd7")]
      [("weighted_score", Json.num 92)] 92 "j7a"
      rfl rfl (by decide) rfl rfl rfl rfl).2 (by decide)

/-- C8: every execution either leaves the audit log untouched or writes
exactly one document, and that document is exactly rejectedDoc (fields
status, score, reason, timestamp — no gemini_details, no job_data) or
exactly readyDoc (fields status, score, gemini_details, job_data,
timestamp — no reason); the two shapes carry statuses REJECTED and
READY_FOR_SUBMISSION respectively, as the field-name lists spell out. -/
theorem C8_audit_entry_fields :
    (∀ (env : Env) (store : Store),
      (analyze_job_posting env store).store = store ∨
      ∃ docId ws,
        (analyze_job_posting env store).store = setDoc store docId (rejectedDoc ws) ∨
        ∃ sr jd, (analyze_job_posting env store).store =
          setDoc store docId (readyDoc ws sr jd)) ∧
    (∀ ws, fieldNames (rejectedDoc ws) = ["status", "score", "reason", "timestamp"] ∧
      docField (rejectedDoc ws) "status" = some (Json.str "REJECTED")) ∧
    (∀ ws sr jd, fieldNames (readyDoc ws sr jd) =
        ["status", "score", "gemini_details", "job_data", "timestamp"] ∧
      docField (readyDoc ws sr jd) "status" = some (Json.str "READY_FOR_SUBMISSION")) := by
  refine ⟨fun env store => ?_, fun ws => ⟨rfl, rfl⟩, fun ws sr jd => ⟨rfl, rfl⟩⟩
  simp only [analyze_job_posting]
  repeat' split
  all_goals first
    | (left; rfl)
    | (right; exact ⟨_, _, Or.inl rfl⟩)
    | (right; exact ⟨_, _, Or.inr ⟨_, _, rfl⟩⟩)

/-- C9: writing the audit log twice with the same job_id leaves exactly
one document at that key, holding the content of the latest write — the
second `set` fully replaces the first, no merge, no history. -/
theorem C9_overwrite_law (store : Store) (id : String) (d1 d2 : Json) :
    getDoc (setDoc (setDoc store id d1) id d2) id = some d2 ∧
    countKey (setDoc (setDoc store id d1) id d2) id = 1 :=
  ⟨getDoc_setDoc_self (setDoc store id d1) id d2,
   countKey_setDoc_self (setDoc store id d1) id d2⟩

/-- C10: a request body that cannot be parsed, or parses to a non-object,
is caught by the same broad except clause as orchestration failures: the
response is a 500 with the errorBody shape — not the 400 validation
response — and the store is untouched. -/
theorem C10_unparseable_body :
    (∀ (env : Env) (store : Store) (e : String),
      env.body = Except.error e →
      analyze_job_posting env store = ⟨500, errorBody e, store, false, false⟩) ∧
    (∀ (env : Env) (store : Store) (j : Json),
      env.body = Except.ok j →
      (∀ fs, j ≠ Json.obj fs) →
      analyze_job_posting env store = ⟨500, errorBody attrGetMsg, store, false, false⟩) := by
  constructor
  · intro env store e hb
    obtain ⟨b, m, wf, wm⟩ := env
    simp only at hb
    subst hb
    rfl
  · intro env store j hb hnj
    obtain ⟨b, m, wf, wm⟩ := env
    simp only at hb
    subst hb
    cases j with
    | obj fs => exact absurd rfl (hnj fs)
    | null => rfl
    | bool c => rfl
    | num r => rfl
    | str s => rfl
    | arr xs => rfl
    | timestamp => rfl

/-- Witness for C10: a body that fails to decode and a body that decodes
to a JSON array both yield a 500 error response and no write. -/
theorem C10_unparseable_body_witness :
    analyze_job_posting envC10err [] =
      ⟨500, errorBody "Failed to decode JSON object", [], false, false⟩ ∧
    analyze_job_posting envC10arr [] =
      ⟨500, errorBody attrGetMsg, [], false, false⟩ := by
  constructor
  · exact C10_unparseable_body.1 envC10err [] "Failed to decode JSON object" rfl
  · exact C10_unparseable_body.2 envC10arr [] (Json.arr []) rfl
      (fun fs h => Json.noConfusion h)
